import Mathlib

/-!
Shallow embedding of `src/trading_bot.py` (a WTI crude-oil alert bot).

The script runs a 2-minute "sentry" polling loop.  On each tick it fetches
candles and indicator values (`get_market_data`), fetches news, and then

  1. flags a price-spike EMERGENCY when `|price - last_price| >= 0.50` and a
     previous dispatched baseline `last_price > 0` exists;
  2. otherwise scans the raw news entries for one with a parseable publish
     time younger than 900 seconds whose link was not seen before, marks it
     seen immediately and flags a breaking-news EMERGENCY;
  3. dispatches a Gemini analysis plus Telegram report when an emergency was
     flagged or at least 1800 seconds passed since the last full report; on
     successful dispatch `last_full_report_time` and `last_price` are updated.

Exceptions inside a tick are caught by the loop-level `try/except` and the
loop continues.  Money amounts and timestamps are modelled as rationals;
external effects (HTTP fetches, the Gemini response, Telegram dispatch) are
inputs of each tick.
-/

namespace TradingBot

/-- Last-row indicator values computed by the `ta` library over the fetched
candle frame in `get_market_data` (`data["Close"].iloc[-1]`,
`data["RSI"].iloc[-1]`, ..., `data["MACD"].iloc[-1]`, `data["Signal"].iloc[-1]`). -/
structure OkData where
  price : ℚ
  rsi : ℚ
  atr : ℚ
  ema50 : ℚ
  ema21 : ℚ
  macdLast : ℚ
  signalLast : ℚ
deriving DecidableEq

/-- Outcome of the `yf.download` call inside `get_market_data`: an empty frame
(`data.empty`), a raised exception, or a frame with computed indicator columns. -/
inductive Fetch
  | noData
  | err (msg : String)
  | ok (d : OkData)
deriving DecidableEq

/-- `get_market_data` returns the tuple
`(data, price, rsi, trend, atr, ema50, ema21)`; on an empty download it is
`(None, 0, 0, "No Data", 0, 0, 0)` and on an exception
`(None, 0, 0, "Error", 0, 0, 0)`. -/
def get_market_data : Fetch → Option OkData × ℚ × ℚ × String × ℚ × ℚ × ℚ
  | Fetch.noData => (none, 0, 0, "No Data", 0, 0, 0)
  | Fetch.err _ => (none, 0, 0, "Error", 0, 0, 0)
  | Fetch.ok d =>
      (some d, d.price, d.rsi,
        if d.macdLast > d.signalLast then "BULLISH 🟢" else "BEARISH 🔴",
        d.atr, d.ema50, d.ema21)

/-- `stop_loss_buy = price - (1.5 * atr)` from `analyze_market`. -/
def stop_loss_buy (price atr : ℚ) : ℚ := price - 1.5 * atr

/-- `take_profit_buy = price + (2.5 * atr)` from `analyze_market`. -/
def take_profit_buy (price atr : ℚ) : ℚ := price + 2.5 * atr

/-- `stop_loss_sell = price + (1.5 * atr)` from `analyze_market`. -/
def stop_loss_sell (price atr : ℚ) : ℚ := price + 1.5 * atr

/-- `take_profit_sell = price - (2.5 * atr)` from `analyze_market`. -/
def take_profit_sell (price atr : ℚ) : ℚ := price - 2.5 * atr

/-- Outcome of the Gemini `generateContent` POST in `analyze_market`: a 200
response with the extracted reply text, a non-200 status with its body, or a
raised exception caught by the surrounding `try/except`. -/
inductive AiResp
  | ok (reply : String)
  | httpError (code : ℕ) (body : String)
  | connFailed (msg : String)
deriving DecidableEq

/-- Return value of `analyze_market(price, rsi, trend, atr, ema50, ema21,
headlines, alert_reason)`.  The model name comes from `get_valid_model()` and
the provider outcome is an explicit input.  The function always returns a
string: the AI reply on success, `"⚠️ AI Error: {status} - {text}"` on a
non-200 status, `"⚠️ AI Connection Failed: {e}"` on an exception.  There is no
further fallback path in the source. -/
def analyze_market (price rsi : ℚ) (trend : String) (atr ema50 ema21 : ℚ)
    (headlines : List String) (alertReason : String)
    (modelName : String) (resp : AiResp) : String :=
  match resp with
  | AiResp.ok reply =>
      "🧠 **AI SIGNAL (" ++ (modelName.splitOn "/").getLastD modelName ++ "):**\n" ++ reply
  | AiResp.httpError code body => "⚠️ AI Error: " ++ toString code ++ " - " ++ body
  | AiResp.connFailed msg => "⚠️ AI Connection Failed: " ++ msg

/-- Substring test on the underlying character lists, modelling Python's
`pat in s`. -/
def containsAux (pat : List Char) : List Char → Bool
  | [] => pat.isEmpty
  | c :: rest => pat.isPrefixOf (c :: rest) || containsAux pat rest

/-- `pat in s` for strings. -/
def strContains (s pat : String) : Bool := containsAux pat.data s.data

/-- Python `f"{q:.2f}"` on the exact rational values this model produces
(half-cent ties, where CPython would use round-half-even, do not occur in any
statement below). -/
def fmt2 (q : ℚ) : String :=
  let cents : ℤ := Int.floor (|q| * 100 + 1 / 2)
  (if q < 0 then "-" else "") ++ toString (cents / 100) ++ "." ++
    (if cents % 100 < 10 then "0" ++ toString (cents % 100) else toString (cents % 100))

/-- One Telegram API call made by `send_telegram`: a `sendPhoto` or a
`sendMessage`. -/
inductive Send
  | photo (file : String)
  | message (text : String)
deriving DecidableEq

/-- `send_telegram(price, trend, analysis, chart_file, alert_reason)` as the
ordered list of Telegram API calls it performs: an optional `sendPhoto`
followed by exactly one `sendMessage` carrying the whole body.  The source has
no length check and no splitting. -/
def send_telegram (price : ℚ) (trend analysis : String) (chartFile : Option String)
    (alertReason : String) : List Send :=
  (match chartFile with
   | some f => [Send.photo f]
   | none => []) ++
  [Send.message
    ((if strContains alertReason "SPIKE" = true ∨ strContains alertReason "BREAKING" = true
      then "🚨 **EMERGENCY WTI ALERT** 🚨"
      else "🏎️ **WTI SPEED REPORT**")
      ++ "\nTrigger: " ++ alertReason ++ "\nPrice: $" ++ fmt2 price
      ++ "\nTrend: " ++ trend ++ "\n\n" ++ analysis)]

/-- Texts of the `sendMessage` calls among a list of sends, in order. -/
def sentTexts (sends : List Send) : List String :=
  sends.filterMap fun s =>
    match s with
    | Send.message t => some t
    | Send.photo _ => none

/-- One feed entry from `get_news`: title, link, and the `published_parsed`
timestamp when the field is present (epoch seconds via `calendar.timegm`). -/
structure NewsEntry where
  title : String
  link : String
  publishedParsed : Option ℚ
deriving DecidableEq

/-- Characters of `title` before the first `" - "`, modelling
`entry.title.split(" - ")[0]`. -/
def takeUntilSep : List Char → List Char
  | [] => []
  | c :: rest =>
      if [' ', '-', ' '].isPrefixOf (c :: rest) then [] else c :: takeUntilSep rest

/-- `entry.title.split(" - ")[0]`. -/
def titleHead (t : String) : String := String.mk (takeUntilSep t.data)

/-- The process-wide mutable state of the sentry loop:
`last_full_report_time`, `last_price`, `seen_news_links`. -/
structure SentryState where
  lastFullReportTime : ℚ
  lastPrice : ℚ
  seenNewsLinks : Finset String
deriving DecidableEq

/-- Environment of a single loop iteration: the market-data fetch outcome, the
`get_news` results, the two clock reads (`time.time()` at the top of the tick
and `calendar.timegm(time.gmtime())` inside the news check), whether the
chart/analysis/Telegram dispatch block raises (`some msg`) or completes
(`none`), and the `time.time()` value read right after a successful dispatch. -/
structure TickInput where
  fetch : Fetch
  headlines : List String
  rawEntries : List NewsEntry
  currentTime : ℚ
  currentUtc : ℚ
  dispatchError : Option String
  dispatchTime : ℚ
deriving DecidableEq

/-- The `alert_reason` string of a tick, kept structured: `"Regular 30-min
Check"`, `f"PRICE SPIKE! Moved {move:.2f} suddenly!"`, or
`f"BREAKING OIL NEWS: {title}"`. -/
inductive AlertReason
  | regular
  | priceSpike (move : ℚ)
  | breakingNews (title : String)
deriving DecidableEq

/-- Rendering of `alert_reason` to the string the source carries around. -/
def AlertReason.text : AlertReason → String
  | AlertReason.regular => "Regular 30-min Check"
  | AlertReason.priceSpike m => "PRICE SPIKE! Moved $" ++ fmt2 m ++ " suddenly!"
  | AlertReason.breakingNews t => "BREAKING OIL NEWS: " ++ t

/-- Whether an alert reason came from the shock path. -/
def AlertReason.isSpike : AlertReason → Bool
  | AlertReason.priceSpike _ => true
  | _ => false

/-- The breaking-news loop of the sentry tick: the first entry that has a
`published_parsed` field, is younger than 900 seconds, and whose link is not
in `seen_news_links` (the loop `break`s on it). -/
def newsScan (currentUtc : ℚ) (seen : Finset String) : List NewsEntry → Option NewsEntry
  | [] => none
  | e :: rest =>
      match e.publishedParsed with
      | some t =>
          if currentUtc - t < 900 ∧ e.link ∉ seen then some e
          else newsScan currentUtc seen rest
      | none => newsScan currentUtc seen rest

/-- Result of a tick that ran to completion: the new state, whether a report
was dispatched, and the final `alert_reason`. -/
structure TickOk where
  state : SentryState
  dispatched : Bool
  reason : AlertReason
deriving DecidableEq

/-- Result of a tick whose dispatch block raised: the state at the raise point
(the seen-set update from the news check has already happened; the report
bookkeeping has not), the classified reason, and the exception message. -/
structure TickError where
  state : SentryState
  reason : AlertReason
  msg : String
deriving DecidableEq

/-- Sections 3 and "TRIGGER GEMINI" of the tick: given the classification
(`isEmergency`, `reason`) and the already-updated seen-set, test
`is_emergency or is_time_up` and either dispatch (updating
`last_full_report_time` and `last_price` only when the dispatch block does not
raise) or stay quiet. -/
def dispatchStep (s : SentryState) (i : TickInput) (price : ℚ) (seen : Finset String)
    (reason : AlertReason) (isEmergency : Bool) : Except TickError TickOk :=
  if isEmergency = true ∨ i.currentTime - s.lastFullReportTime ≥ 1800 then
    match i.dispatchError with
    | none => Except.ok ⟨⟨i.dispatchTime, price, seen⟩, true, reason⟩
    | some msg => Except.error ⟨⟨s.lastFullReportTime, s.lastPrice, seen⟩, reason, msg⟩
  else Except.ok ⟨⟨s.lastFullReportTime, s.lastPrice, seen⟩, false, reason⟩

/-- Sections 1 and 2 of the tick, which run once market data is available:
the price-spike check against the `last_price` baseline, then (only if no
spike) the breaking-news scan, which adds the found link to
`seen_news_links` at the moment of detection. -/
def tickCore (s : SentryState) (i : TickInput) (price : ℚ) : Except TickError TickOk :=
  if s.lastPrice > 0 ∧ |price - s.lastPrice| ≥ 0.50 then
    dispatchStep s i price s.seenNewsLinks (AlertReason.priceSpike |price - s.lastPrice|) true
  else
    match newsScan i.currentUtc s.seenNewsLinks i.rawEntries with
    | some e =>
        dispatchStep s i price (insert e.link s.seenNewsLinks)
          (AlertReason.breakingNews (titleHead e.title)) true
    | none => dispatchStep s i price s.seenNewsLinks AlertReason.regular false

/-- One iteration of the `while True` body (inside its `try`): destructure
`get_market_data`, `continue` when `data is None`, otherwise classify and
possibly dispatch. -/
def tickBody (s : SentryState) (i : TickInput) : Except TickError TickOk :=
  match get_market_data i.fetch with
  | (none, _, _, _, _, _, _) => Except.ok ⟨s, false, AlertReason.regular⟩
  | (some _, price, _, _, _, _, _) => tickCore s i price

/-- State left by a tick, whether it completed or its dispatch raised: this is
what the loop's `except Exception` clause preserves for the next iteration. -/
def caughtState : Except TickError TickOk → SentryState
  | Except.ok r => r.state
  | Except.error e => e.state

/-- Final `alert_reason` classified by a tick (also defined when the dispatch
raised afterwards). -/
def resultReason : Except TickError TickOk → AlertReason
  | Except.ok r => r.reason
  | Except.error e => e.reason

/-- Whether the tick entered the dispatch block (an error could only have been
raised inside it). -/
def resultDispatched : Except TickError TickOk → Bool
  | Except.ok r => r.dispatched
  | Except.error _ => true

/-- State after one loop iteration, with the tick-boundary `except` applied. -/
def tickCaught (s : SentryState) (i : TickInput) : SentryState :=
  caughtState (tickBody s i)

/-- `alert_reason` classified by a tick. -/
def tickReason (s : SentryState) (i : TickInput) : AlertReason :=
  resultReason (tickBody s i)

/-- Whether a tick entered the dispatch block. -/
def tickDispatches (s : SentryState) (i : TickInput) : Bool :=
  resultDispatched (tickBody s i)

/-- The shock check `last_price > 0 and abs(price - last_price) >= 0.50`,
followed by the news scan only when the shock did not fire: the emergency
flag of the tick. -/
def isEmergencyTick (s : SentryState) (i : TickInput) (price : ℚ) : Bool :=
  if s.lastPrice > 0 ∧ |price - s.lastPrice| ≥ 0.50 then true
  else (newsScan i.currentUtc s.seenNewsLinks i.rawEntries).isSome

/-- The news entry whose link the breaking-news check fires on during a tick,
if any: requires market data, no price spike, and a fresh unseen entry. -/
def newsTrigger (s : SentryState) (i : TickInput) : Option NewsEntry :=
  match get_market_data i.fetch with
  | (none, _, _, _, _, _, _) => none
  | (some _, price, _, _, _, _, _) =>
      if s.lastPrice > 0 ∧ |price - s.lastPrice| ≥ 0.50 then none
      else newsScan i.currentUtc s.seenNewsLinks i.rawEntries

/-- The sentry loop over a finite schedule of tick environments, with the
tick-boundary exception handler applied at every iteration. -/
def runSentry (s : SentryState) : List TickInput → SentryState
  | [] => s
  | i :: rest => runSentry (tickCaught s i) rest

/-- Trace of `alert_reason` classifications along a run. -/
def runReasons (s : SentryState) : List TickInput → List AlertReason
  | [] => []
  | i :: rest => tickReason s i :: runReasons (tickCaught s i) rest

/-- Trace of breaking-news trigger links along a run (`none` on ticks whose
news check does not fire). -/
def runTriggers (s : SentryState) : List TickInput → List (Option String)
  | [] => []
  | i :: rest => (newsTrigger s i).map NewsEntry.link :: runTriggers (tickCaught s i) rest

/-- The tick price when market data was fetched successfully. -/
def okPrice : Fetch → Option ℚ
  | Fetch.ok d => some d.price
  | _ => none

/-- Prices of the data-carrying ticks of a schedule. -/
def okPrices (inputs : List TickInput) : List ℚ :=
  inputs.filterMap fun i => okPrice i.fetch

/-- Concrete indicator row used by the C7 witness tick. -/
def wOkC7 : OkData := ⟨80, 50, 2, 79, 81, 1, 0⟩

/-- Witness tick for the dispatch/baseline theorem: data available, no news,
30 minutes elapsed, dispatch succeeds. -/
def wTickC7 : TickInput := ⟨Fetch.ok wOkC7, [], [], 2000, 2000, none, 2005⟩

/-- Witness tick whose dispatch block raises `"boom"`. -/
def wTickC9 : TickInput := ⟨Fetch.ok ⟨80, 50, 2, 79, 81, 1, 0⟩, [], [], 2000, 2000, some "boom", 2005⟩

/-- Fresh news entry used by the dedup witness. -/
def wEntryC2 : NewsEntry := ⟨"Oil surges - Reuters", "lnk1", some 50⟩

/-- Witness tick carrying one fresh unseen news entry. -/
def wTickC2 : TickInput := ⟨Fetch.ok ⟨80, 50, 2, 79, 81, 1, 0⟩, [], [wEntryC2], 100, 60, none, 100⟩

/-- Witness tick for the pairwise-bounded no-spike theorem. -/
def wTickC1 : TickInput := ⟨Fetch.ok ⟨80, 50, 2, 79, 81, 1, 0⟩, [], [], 10000, 10000, none, 10000⟩

/-- First tick of the accumulated-drift counterexample: price 80.00, the
scheduled report dispatches and records the 80.00 baseline. -/
def cexTickA : TickInput := ⟨Fetch.ok ⟨80.00, 50, 2, 79, 81, 1, 0⟩, [], [], 10000, 10000, none, 10000⟩

/-- Second tick: price 80.40, only 0.40 above both the previous price and the
baseline, two minutes later — a quiet tick, baseline stays 80.00. -/
def cexTickB : TickInput := ⟨Fetch.ok ⟨80.40, 50, 2, 79, 81, 1, 0⟩, [], [], 10120, 10120, none, 10120⟩

/-- Third tick: price 80.80, only 0.40 above the previous price but 0.80 above
the still-unchanged 80.00 baseline. -/
def cexTickC : TickInput := ⟨Fetch.ok ⟨80.80, 50, 2, 79, 81, 1, 0⟩, [], [], 10240, 10240, none, 10240⟩

/-- Witness tick with an empty market-data download. -/
def wTickC6 : TickInput := ⟨Fetch.noData, [], [], 0, 0, none, 0⟩

/-- Body of 5000 characters for the message-splitting counterexample. -/
def wBody5000 : String := String.mk (List.replicate 5000 'a')

theorem tickBody_fetch_ok (s : SentryState) (i : TickInput) (d : OkData)
    (hf : i.fetch = Fetch.ok d) : tickBody s i = tickCore s i d.price := by
  unfold tickBody
  rw [hf]
  rfl

theorem tickBody_fetch_none (s : SentryState) (i : TickInput)
    (h : (get_market_data i.fetch).1 = none) :
    tickBody s i = Except.ok ⟨s, false, AlertReason.regular⟩ := by
  unfold tickBody
  cases hf : i.fetch with
  | noData => rfl
  | err m => rfl
  | ok d => rw [hf] at h; simp [get_market_data] at h

theorem resultReason_dispatchStep (s : SentryState) (i : TickInput) (price : ℚ)
    (seen : Finset String) (r : AlertReason) (b : Bool) :
    resultReason (dispatchStep s i price seen r b) = r := by
  unfold dispatchStep resultReason
  by_cases hc : b = true ∨ i.currentTime - s.lastFullReportTime ≥ 1800
  · rw [if_pos hc]; cases hd : i.dispatchError <;> rfl
  · rw [if_neg hc]

theorem resultDispatched_dispatchStep (s : SentryState) (i : TickInput) (price : ℚ)
    (seen : Finset String) (r : AlertReason) (b : Bool) :
    resultDispatched (dispatchStep s i price seen r b) = true ↔
      (b = true ∨ i.currentTime - s.lastFullReportTime ≥ 1800) := by
  unfold dispatchStep resultDispatched
  by_cases hc : b = true ∨ i.currentTime - s.lastFullReportTime ≥ 1800
  · rw [if_pos hc]; cases hd : i.dispatchError <;> simpa using hc
  · rw [if_neg hc]; simpa using hc

theorem caughtState_dispatchStep_seen (s : SentryState) (i : TickInput) (price : ℚ)
    (seen : Finset String) (r : AlertReason) (b : Bool) :
    (caughtState (dispatchStep s i price seen r b)).seenNewsLinks = seen := by
  unfold dispatchStep caughtState
  by_cases hc : b = true ∨ i.currentTime - s.lastFullReportTime ≥ 1800
  · rw [if_pos hc]; cases hd : i.dispatchError <;> rfl
  · rw [if_neg hc]

theorem caughtState_dispatchStep_cases (s : SentryState) (i : TickInput) (price : ℚ)
    (seen : Finset String) (r : AlertReason) (b : Bool) :
    caughtState (dispatchStep s i price seen r b) = ⟨i.dispatchTime, price, seen⟩ ∨
    caughtState (dispatchStep s i price seen r b) =
      ⟨s.lastFullReportTime, s.lastPrice, seen⟩ := by
  unfold dispatchStep caughtState
  by_cases hc : b = true ∨ i.currentTime - s.lastFullReportTime ≥ 1800
  · rw [if_pos hc]; cases hd : i.dispatchError
    · exact Or.inl rfl
    · exact Or.inr rfl
  · rw [if_neg hc]; exact Or.inr rfl

theorem dispatchStep_go (s : SentryState) (i : TickInput) (price : ℚ)
    (seen : Finset String) (r : AlertReason) (b : Bool)
    (hc : b = true ∨ i.currentTime - s.lastFullReportTime ≥ 1800)
    (hd : i.dispatchError = none) :
    dispatchStep s i price seen r b = Except.ok ⟨⟨i.dispatchTime, price, seen⟩, true, r⟩ := by
  unfold dispatchStep
  rw [if_pos hc, hd]

theorem dispatchStep_raise (s : SentryState) (i : TickInput) (price : ℚ)
    (seen : Finset String) (r : AlertReason) (b : Bool) (msg : String)
    (hc : b = true ∨ i.currentTime - s.lastFullReportTime ≥ 1800)
    (hd : i.dispatchError = some msg) :
    dispatchStep s i price seen r b =
      Except.error ⟨⟨s.lastFullReportTime, s.lastPrice, seen⟩, r, msg⟩ := by
  unfold dispatchStep
  rw [if_pos hc, hd]

theorem dispatchStep_quiet (s : SentryState) (i : TickInput) (price : ℚ)
    (seen : Finset String) (r : AlertReason) (b : Bool)
    (hc : ¬(b = true ∨ i.currentTime - s.lastFullReportTime ≥ 1800)) :
    dispatchStep s i price seen r b =
      Except.ok ⟨⟨s.lastFullReportTime, s.lastPrice, seen⟩, false, r⟩ := by
  unfold dispatchStep
  rw [if_neg hc]

theorem tickCore_spike (s : SentryState) (i : TickInput) (price : ℚ)
    (hs : s.lastPrice > 0 ∧ |price - s.lastPrice| ≥ 0.50) :
    tickCore s i price =
      dispatchStep s i price s.seenNewsLinks
        (AlertReason.priceSpike |price - s.lastPrice|) true := by
  unfold tickCore
  rw [if_pos hs]

theorem tickCore_news (s : SentryState) (i : TickInput) (price : ℚ) (e : NewsEntry)
    (hs : ¬(s.lastPrice > 0 ∧ |price - s.lastPrice| ≥ 0.50))
    (hn : newsScan i.currentUtc s.seenNewsLinks i.rawEntries = some e) :
    tickCore s i price =
      dispatchStep s i price (insert e.link s.seenNewsLinks)
        (AlertReason.breakingNews (titleHead e.title)) true := by
  unfold tickCore
  rw [if_neg hs, hn]

theorem tickCore_quiet (s : SentryState) (i : TickInput) (price : ℚ)
    (hs : ¬(s.lastPrice > 0 ∧ |price - s.lastPrice| ≥ 0.50))
    (hn : newsScan i.currentUtc s.seenNewsLinks i.rawEntries = none) :
    tickCore s i price =
      dispatchStep s i price s.seenNewsLinks AlertReason.regular false := by
  unfold tickCore
  rw [if_neg hs, hn]

theorem tickCore_eq_dispatchStep (s : SentryState) (i : TickInput) (price : ℚ) :
    ∃ seen r, tickCore s i price =
      dispatchStep s i price seen r (isEmergencyTick s i price) := by
  unfold isEmergencyTick
  by_cases hs : s.lastPrice > 0 ∧ |price - s.lastPrice| ≥ 0.50
  · rw [if_pos hs]
    exact ⟨_, _, tickCore_spike s i price hs⟩
  · rw [if_neg hs]
    cases hn : newsScan i.currentUtc s.seenNewsLinks i.rawEntries with
    | none => exact ⟨_, _, tickCore_quiet s i price hs hn⟩
    | some e => exact ⟨_, _, tickCore_news s i price e hs hn⟩

theorem newsScan_not_seen (u : ℚ) :
    ∀ (es : List NewsEntry) (seen : Finset String) (e : NewsEntry),
      newsScan u seen es = some e → e.link ∉ seen := by
  intro es
  induction es with
  | nil => intro seen e h; simp [newsScan] at h
  | cons a rest ih =>
    intro seen e h
    rw [newsScan] at h
    cases hp : a.publishedParsed with
    | none => rw [hp] at h; exact ih seen e h
    | some t =>
      rw [hp] at h
      dsimp only at h
      by_cases hc : u - t < 900 ∧ a.link ∉ seen
      · rw [if_pos hc] at h
        cases h
        exact hc.2
      · rw [if_neg hc] at h
        exact ih seen e h

theorem newsTrigger_elim (s : SentryState) (i : TickInput) (e : NewsEntry)
    (h : newsTrigger s i = some e) :
    ∃ d, i.fetch = Fetch.ok d ∧
      ¬(s.lastPrice > 0 ∧ |d.price - s.lastPrice| ≥ 0.50) ∧
      newsScan i.currentUtc s.seenNewsLinks i.rawEntries = some e := by
  unfold newsTrigger at h
  cases hf : i.fetch with
  | noData => rw [hf] at h; simp [get_market_data] at h
  | err m => rw [hf] at h; simp [get_market_data] at h
  | ok d =>
    rw [hf] at h
    by_cases hs : s.lastPrice > 0 ∧ |d.price - s.lastPrice| ≥ 0.50
    · rw [show get_market_data (Fetch.ok d) =
          (some d, d.price, d.rsi,
            if d.macdLast > d.signalLast then "BULLISH 🟢" else "BEARISH 🔴",
            d.atr, d.ema50, d.ema21) from rfl] at h
      simp only at h
      rw [if_pos hs] at h
      exact absurd h (by simp)
    · refine ⟨d, rfl, hs, ?_⟩
      rw [show get_market_data (Fetch.ok d) =
          (some d, d.price, d.rsi,
            if d.macdLast > d.signalLast then "BULLISH 🟢" else "BEARISH 🔴",
            d.atr, d.ema50, d.ema21) from rfl] at h
      simp only at h
      rw [if_neg hs] at h
      exact h

theorem newsTrigger_some_not_seen (s : SentryState) (i : TickInput) (e : NewsEntry)
    (h : newsTrigger s i = some e) : e.link ∉ s.seenNewsLinks := by
  rcases newsTrigger_elim s i e h with ⟨d, _, _, hscan⟩
  exact newsScan_not_seen i.currentUtc i.rawEntries s.seenNewsLinks e hscan

theorem newsTrigger_some_seen_after (s : SentryState) (i : TickInput) (e : NewsEntry)
    (h : newsTrigger s i = some e) :
    (tickCaught s i).seenNewsLinks = insert e.link s.seenNewsLinks := by
  rcases newsTrigger_elim s i e h with ⟨d, hf, hs, hscan⟩
  unfold tickCaught
  rw [tickBody_fetch_ok s i d hf, tickCore_news s i d.price e hs hscan]
  exact caughtState_dispatchStep_seen s i d.price _ _ _

theorem tickCaught_seen_cases (s : SentryState) (i : TickInput) :
    (tickCaught s i).seenNewsLinks = s.seenNewsLinks ∨
    ∃ e, newsTrigger s i = some e ∧
      (tickCaught s i).seenNewsLinks = insert e.link s.seenNewsLinks := by
  cases hf : i.fetch with
  | noData =>
    left
    unfold tickCaught
    rw [tickBody_fetch_none s i (by rw [hf]; rfl)]
    rfl
  | err m =>
    left
    unfold tickCaught
    rw [tickBody_fetch_none s i (by rw [hf]; rfl)]
    rfl
  | ok d =>
    by_cases hs : s.lastPrice > 0 ∧ |d.price - s.lastPrice| ≥ 0.50
    · left
      unfold tickCaught
      rw [tickBody_fetch_ok s i d hf, tickCore_spike s i d.price hs]
      exact caughtState_dispatchStep_seen s i d.price _ _ _
    · cases hn : newsScan i.currentUtc s.seenNewsLinks i.rawEntries with
      | none =>
        left
        unfold tickCaught
        rw [tickBody_fetch_ok s i d hf, tickCore_quiet s i d.price hs hn]
        exact caughtState_dispatchStep_seen s i d.price _ _ _
      | some e =>
        right
        refine ⟨e, ?_, ?_⟩
        · unfold newsTrigger
          rw [hf]
          rw [show get_market_data (Fetch.ok d) =
              (some d, d.price, d.rsi,
                if d.macdLast > d.signalLast then "BULLISH 🟢" else "BEARISH 🔴",
                d.atr, d.ema50, d.ema21) from rfl]
          simp only
          rw [if_neg hs]
          exact hn
        · unfold tickCaught
          rw [tickBody_fetch_ok s i d hf, tickCore_news s i d.price e hs hn]
          exact caughtState_dispatchStep_seen s i d.price _ _ _

theorem tickCaught_seen_mono (s : SentryState) (i : TickInput) :
    s.seenNewsLinks ⊆ (tickCaught s i).seenNewsLinks := by
  rcases tickCaught_seen_cases s i with h | ⟨e, _, h⟩
  · rw [h]
  · rw [h]; exact Finset.subset_insert _ _

theorem tickCaught_card (s : SentryState) (i : TickInput) :
    (tickCaught s i).seenNewsLinks.card ≤ s.seenNewsLinks.card + 1 := by
  rcases tickCaught_seen_cases s i with h | ⟨e, _, h⟩
  · rw [h]; exact Nat.le_succ _
  · rw [h]; exact Finset.card_insert_le _ _

theorem tickCaught_lastPrice_cases (s : SentryState) (i : TickInput) :
    ((tickCaught s i).lastPrice = s.lastPrice ∧
     (tickCaught s i).lastFullReportTime = s.lastFullReportTime) ∨
    ∃ d, i.fetch = Fetch.ok d ∧ (tickCaught s i).lastPrice = d.price := by
  cases hf : i.fetch with
  | noData =>
    left
    unfold tickCaught
    rw [tickBody_fetch_none s i (by rw [hf]; rfl)]
    exact ⟨rfl, rfl⟩
  | err m =>
    left
    unfold tickCaught
    rw [tickBody_fetch_none s i (by rw [hf]; rfl)]
    exact ⟨rfl, rfl⟩
  | ok d =>
    have hcore : ∃ seen r b, tickBody s i = dispatchStep s i d.price seen r b := by
      rcases tickCore_eq_dispatchStep s i d.price with ⟨seen, r, hc⟩
      exact ⟨seen, r, _, (tickBody_fetch_ok s i d hf).trans hc⟩
    rcases hcore with ⟨seen, r, b, hb⟩
    unfold tickCaught
    rw [hb]
    rcases caughtState_dispatchStep_cases s i d.price seen r b with h | h
    · right; exact ⟨d, rfl, by rw [h]⟩
    · left; rw [h]; exact ⟨rfl, rfl⟩

theorem tickReason_spike_shock (s : SentryState) (i : TickInput)
    (h : (tickReason s i).isSpike = true) :
    ∃ d, i.fetch = Fetch.ok d ∧ s.lastPrice > 0 ∧ |d.price - s.lastPrice| ≥ 0.50 := by
  cases hf : i.fetch with
  | noData =>
    unfold tickReason at h
    rw [tickBody_fetch_none s i (by rw [hf]; rfl)] at h
    simp [resultReason, AlertReason.isSpike] at h
  | err m =>
    unfold tickReason at h
    rw [tickBody_fetch_none s i (by rw [hf]; rfl)] at h
    simp [resultReason, AlertReason.isSpike] at h
  | ok d =>
    by_cases hs : s.lastPrice > 0 ∧ |d.price - s.lastPrice| ≥ 0.50
    · exact ⟨d, rfl, hs⟩
    · exfalso
      unfold tickReason at h
      rw [tickBody_fetch_ok s i d hf] at h
      cases hn : newsScan i.currentUtc s.seenNewsLinks i.rawEntries with
      | none =>
        rw [tickCore_quiet s i d.price hs hn, resultReason_dispatchStep] at h
        simp [AlertReason.isSpike] at h
      | some e =>
        rw [tickCore_news s i d.price e hs hn, resultReason_dispatchStep] at h
        simp [AlertReason.isSpike] at h

theorem runTriggers_count_zero :
    ∀ (inputs : List TickInput) (s : SentryState) (l : String), l ∈ s.seenNewsLinks →
      List.countP (fun o => decide (o = some l)) (runTriggers s inputs) = 0 := by
  intro inputs
  induction inputs with
  | nil => intro s l h; rfl
  | cons i rest ih =>
    intro s l hl
    rw [runTriggers, List.countP_cons]
    have hz : decide ((newsTrigger s i).map NewsEntry.link = some l) = false := by
      cases ht : newsTrigger s i with
      | none => simp
      | some e =>
        simp only [Option.map_some', decide_eq_false_iff_not, ne_eq, Option.some.injEq]
        intro he
        exact newsTrigger_some_not_seen s i e ht (he ▸ hl)
    rw [hz]
    simp only [Bool.false_eq_true, if_false, Nat.add_zero]
    exact ih (tickCaught s i) l (tickCaught_seen_mono s i hl)

theorem runTriggers_count_le_one :
    ∀ (inputs : List TickInput) (s : SentryState) (l : String),
      List.countP (fun o => decide (o = some l)) (runTriggers s inputs) ≤ 1 := by
  intro inputs
  induction inputs with
  | nil => intro s l; simp [runTriggers]
  | cons i rest ih =>
    intro s l
    rw [runTriggers, List.countP_cons]
    cases ht : newsTrigger s i with
    | none => simpa using ih (tickCaught s i) l
    | some e =>
      by_cases he : e.link = l
      · have h0 : List.countP (fun o => decide (o = some l))
            (runTriggers (tickCaught s i) rest) = 0 := by
          refine runTriggers_count_zero rest (tickCaught s i) l ?_
          rw [newsTrigger_some_seen_after s i e ht, ← he]
          exact Finset.mem_insert_self _ _
        simp [he, h0]
      · simpa [he] using ih (tickCaught s i) l

theorem okPrices_cons_sub (i : TickInput) (rest : List TickInput) :
    ∀ p ∈ okPrices rest, p ∈ okPrices (i :: rest) := by
  intro p hp
  rcases List.mem_filterMap.1 hp with ⟨a, ha, hpa⟩
  exact List.mem_filterMap.2 ⟨a, List.mem_cons_of_mem i ha, hpa⟩

theorem okPrices_head (i : TickInput) (rest : List TickInput) (d : OkData)
    (hf : i.fetch = Fetch.ok d) : d.price ∈ okPrices (i :: rest) := by
  exact List.mem_filterMap.2 ⟨i, List.mem_cons_self i rest, by rw [hf]; rfl⟩

theorem no_spike_aux :
    ∀ (inputs : List TickInput) (s : SentryState),
      (∀ p ∈ okPrices inputs, ∀ q ∈ okPrices inputs, |p - q| < 0.50) →
      (s.lastPrice = 0 ∨ ∀ p ∈ okPrices inputs, |p - s.lastPrice| < 0.50) →
      ∀ r ∈ runReasons s inputs, r.isSpike = false := by
  intro inputs
  induction inputs with
  | nil => intro s h1 h2 r hr; simp [runReasons] at hr
  | cons i rest ih =>
    intro s h1 h2 r hr
    rw [runReasons] at hr
    rcases List.mem_cons.1 hr with rfl | hr
    · cases hsp : (tickReason s i).isSpike with
      | false => rfl
      | true =>
        exfalso
        rcases tickReason_spike_shock s i hsp with ⟨d, hf, hpos, habs⟩
        rcases h2 with h0 | hB
        · rw [h0] at hpos; exact lt_irrefl 0 hpos
        · exact absurd habs (not_le.2 (hB d.price (okPrices_head i rest d hf)))
    · refine ih (tickCaught s i) ?_ ?_ r hr
      · intro p hp q hq
        exact h1 p (okPrices_cons_sub i rest p hp) q (okPrices_cons_sub i rest q hq)
      · rcases tickCaught_lastPrice_cases s i with ⟨hsame, _⟩ | ⟨d, hf, hnew⟩
        · rw [hsame]
          rcases h2 with h0 | hB
          · exact Or.inl h0
          · exact Or.inr fun p hp => hB p (okPrices_cons_sub i rest p hp)
        · rw [hnew]
          exact Or.inr fun p hp =>
            h1 p (okPrices_cons_sub i rest p hp) d.price (okPrices_head i rest d hf)

/-- C3 counterexample: on provider failure `analyze_market` returns the same
error string for RSI 25 with a bullish headline and RSI 75 with a bearish
headline.  The claimed keyword-scoring fallback with RSI override would force
BUY in the first call and SELL in the second, so the two results would have to
differ; instead both equal the literal `"⚠️ AI Error: 500 - Internal"` — no
heuristic path exists in the code. -/
theorem fallback_heuristic_absent_cex :
    analyze_market 80 25 "BULLISH 🟢" 2 81 82 ["OPEC announces production cut"]
        "Regular 30-min Check" "models/gemini-1.5-flash" (AiResp.httpError 500 "Internal") =
      "⚠️ AI Error: 500 - Internal" ∧
    analyze_market 80 75 "BEARISH 🔴" 2 81 82 ["Peace talks deal reached"]
        "Regular 30-min Check" "models/gemini-1.5-flash" (AiResp.httpError 500 "Internal") =
      "⚠️ AI Error: 500 - Internal" :=
  ⟨rfl, rfl⟩

/-- C3 amended: when the provider call fails, `analyze_market` returns an
error-message string that does not depend on RSI, trend, headlines,
alert reason or model name — the source has no keyword-scoring heuristic and
no RSI override. -/
theorem analyze_failure_ignores_rsi_and_headlines :
    ∀ (price rsi rsiB : ℚ) (trend trendB : String) (atr ema50 ema21 : ℚ)
      (headlines headlinesB : List String)
      (alertReason alertReasonB modelName modelNameB : String)
      (code : ℕ) (body msg : String),
      analyze_market price rsi trend atr ema50 ema21 headlines alertReason modelName
          (AiResp.httpError code body) =
        analyze_market price rsiB trendB atr ema50 ema21 headlinesB alertReasonB modelNameB
          (AiResp.httpError code body) ∧
      analyze_market price rsi trend atr ema50 ema21 headlines alertReason modelName
          (AiResp.httpError code body) = "⚠️ AI Error: " ++ toString code ++ " - " ++ body ∧
      analyze_market price rsi trend atr ema50 ema21 headlines alertReason modelName
          (AiResp.connFailed msg) =
        analyze_market price rsiB trendB atr ema50 ema21 headlinesB alertReasonB modelNameB
          (AiResp.connFailed msg) :=
  fun _ _ _ _ _ _ _ _ _ _ _ _ _ _ _ _ _ => ⟨rfl, rfl, rfl⟩

/-- C4 counterexample: on total provider failure the returned string is the
raw error message; it contains none of the action words WAIT, BUY or SELL, so
it is not a Recommendation with action WAIT as the claim states. -/
theorem total_failure_not_wait_cex :
    analyze_market 80 50 "BULLISH 🟢" 2 81 82 [] "Regular 30-min Check" "m"
        (AiResp.httpError 503 "overloaded") = "⚠️ AI Error: 503 - overloaded" ∧
    strContains "⚠️ AI Error: 503 - overloaded" "WAIT" = false ∧
    strContains "⚠️ AI Error: 503 - overloaded" "BUY" = false ∧
    strContains "⚠️ AI Error: 503 - overloaded" "SELL" = false :=
  ⟨rfl, by decide, by decide, by decide⟩

/-- C4 amended: `analyze_market` never leaves the caller without a result —
on any provider failure it still returns a non-empty string — but that string
is an error message (`"⚠️ AI Error: ..."` or `"⚠️ AI Connection Failed: ..."`),
not a WAIT recommendation. -/
theorem analyze_failure_nonempty_string :
    ∀ (price rsi : ℚ) (trend : String) (atr ema50 ema21 : ℚ) (headlines : List String)
      (alertReason modelName : String) (code : ℕ) (body msg : String),
      analyze_market price rsi trend atr ema50 ema21 headlines alertReason modelName
          (AiResp.httpError code body) = "⚠️ AI Error: " ++ toString code ++ " - " ++ body ∧
      0 < (analyze_market price rsi trend atr ema50 ema21 headlines alertReason modelName
          (AiResp.httpError code body)).length ∧
      analyze_market price rsi trend atr ema50 ema21 headlines alertReason modelName
          (AiResp.connFailed msg) = "⚠️ AI Connection Failed: " ++ msg ∧
      0 < (analyze_market price rsi trend atr ema50 ema21 headlines alertReason modelName
          (AiResp.connFailed msg)).length := by
  intro price rsi trend atr ema50 ema21 headlines alertReason modelName code body msg
  refine ⟨rfl, ?_, rfl, ?_⟩
  · show 0 < ("⚠️ AI Error: " ++ toString code ++ " - " ++ body).length
    simp only [String.length_append]
    have h0 : 0 < ("⚠️ AI Error: " : String).length := by decide
    omega
  · show 0 < ("⚠️ AI Connection Failed: " ++ msg).length
    simp only [String.length_append]
    have h0 : 0 < ("⚠️ AI Connection Failed: " : String).length := by decide
    omega

/-- C5: the risk levels computed in `analyze_market` are
`price ∓ 1.5·atr` for the stops and `price ± 2.5·atr` for the targets, and at
price 80.00, atr 2.00 they are 77.00 / 85.00 for the long side and
83.00 / 75.00 for the short side. -/
theorem risk_levels_formulas :
    (∀ price atr : ℚ,
        stop_loss_buy price atr = price - 1.5 * atr ∧
        take_profit_buy price atr = price + 2.5 * atr ∧
        stop_loss_sell price atr = price + 1.5 * atr ∧
        take_profit_sell price atr = price - 2.5 * atr) ∧
    stop_loss_buy 80 2 = 77 ∧ take_profit_buy 80 2 = 85 ∧
    stop_loss_sell 80 2 = 83 ∧ take_profit_sell 80 2 = 75 := by
  refine ⟨fun price atr => ⟨rfl, rfl, rfl, rfl⟩, ?_, ?_, ?_, ?_⟩ <;>
    norm_num [stop_loss_buy, take_profit_buy, stop_loss_sell, take_profit_sell]

/-- C6 counterexample: on an empty download and on a fetch exception
`get_market_data` reports the numeric value 0 for price, rsi, atr, ema50 and
ema21 — not a NaN or explicit per-feature sentinel as the claim states.  The
sentinel is the `None` data marker (plus the trend strings
`"No Data"` / `"Error"`). -/
theorem insufficient_data_zero_cex :
    get_market_data Fetch.noData = (none, 0, 0, "No Data", 0, 0, 0) ∧
    get_market_data (Fetch.err "timeout") = (none, 0, 0, "Error", 0, 0, 0) :=
  ⟨rfl, rfl⟩

/-- C6 amended: when market data is unavailable `get_market_data` returns the
`None` data marker together with numeric zeros for the features, and the main
loop guards on the marker — a tick with `data is None` performs no
classification, no dispatch and no state change, so the zero placeholders are
never consumed downstream. -/
theorem no_data_marker_and_tick_skip :
    ∀ (s : SentryState) (i : TickInput),
      (get_market_data i.fetch).1 = none →
      (get_market_data i.fetch).2.1 = 0 ∧
      tickBody s i = Except.ok ⟨s, false, AlertReason.regular⟩ := by
  intro s i h
  refine ⟨?_, tickBody_fetch_none s i h⟩
  cases hf : i.fetch with
  | noData => rfl
  | err m => rfl
  | ok d => rw [hf] at h; simp [get_market_data] at h

/-- C6 witness: the no-data tick at a concrete state. -/
theorem no_data_marker_and_tick_skip_witness :
    (get_market_data wTickC6.fetch).1 = none ∧
    ((get_market_data wTickC6.fetch).2.1 = 0 ∧
      tickBody ⟨3, 5, ∅⟩ wTickC6 = Except.ok ⟨⟨3, 5, ∅⟩, false, AlertReason.regular⟩) :=
  ⟨rfl, no_data_marker_and_tick_skip ⟨3, 5, ∅⟩ wTickC6 rfl⟩

theorem wBody5000_length : wBody5000.length = 5000 := by
  unfold wBody5000
  rw [String.length_mk, List.length_replicate]

/-- C8 counterexample: a 5000-character analysis body is delivered by
`send_telegram` as exactly one `sendMessage` whose text is longer than 4000
characters — the claimed split into two messages of ≤ 4000 and ≤ 1000
characters does not happen. -/
theorem send_single_message_cex :
    (sentTexts (send_telegram 80 "BULLISH 🟢" wBody5000 none "Regular 30-min Check")).length
      = 1 ∧
    4000 < ((sentTexts
      (send_telegram 80 "BULLISH 🟢" wBody5000 none "Regular 30-min Check")).headD "").length := by
  constructor
  · rfl
  · have h : ((sentTexts
        (send_telegram 80 "BULLISH 🟢" wBody5000 none "Regular 30-min Check")).headD "") =
        (if strContains "Regular 30-min Check" "SPIKE" = true ∨
            strContains "Regular 30-min Check" "BREAKING" = true
         then "🚨 **EMERGENCY WTI ALERT** 🚨" else "🏎️ **WTI SPEED REPORT**")
          ++ "\nTrigger: " ++ "Regular 30-min Check" ++ "\nPrice: $" ++ fmt2 80
          ++ "\nTrend: " ++ "BULLISH 🟢" ++ "\n\n" ++ wBody5000 := rfl
    rw [h, String.length_append, wBody5000_length]
    omega

/-- C8 amended: `send_telegram` always performs exactly one `sendMessage`
call carrying the whole body, for every body length — the source has no
length check and no message splitting. -/
theorem send_never_splits :
    ∀ (price : ℚ) (trend analysis : String) (chartFile : Option String)
      (alertReason : String),
      (sentTexts (send_telegram price trend analysis chartFile alertReason)).length = 1 := by
  intro price trend analysis chartFile alertReason
  cases chartFile <;> rfl

/-- C10: the seen-news set grows monotonically — each tick either leaves it
unchanged or inserts the single link its breaking-news check fired on (so its
size grows by at most one per tick) — and along any run from any start state a
given link appears as a breaking-news trigger at most once. -/
theorem seen_links_monotone_at_most_once :
    ∀ (s : SentryState) (inputs : List TickInput) (l : String) (i : TickInput),
      List.countP (fun o => decide (o = some l)) (runTriggers s inputs) ≤ 1 ∧
      s.seenNewsLinks ⊆ (tickCaught s i).seenNewsLinks ∧
      (tickCaught s i).seenNewsLinks.card ≤ s.seenNewsLinks.card + 1 :=
  fun s inputs l i =>
    ⟨runTriggers_count_le_one inputs s l, tickCaught_seen_mono s i, tickCaught_card s i⟩

/-- C9: an exception raised inside a tick body is absorbed at the tick
boundary — when `tickBody` raises, the sentry loop simply continues with the
remaining ticks from the state the failed tick left behind; a single tick's
failure never terminates the run. -/
theorem tick_exception_caught_loop_continues :
    ∀ (s : SentryState) (i : TickInput) (rest : List TickInput) (er : TickError),
      tickBody s i = Except.error er →
      runSentry s (i :: rest) = runSentry er.state rest := by
  intro s i rest er h
  have hc : tickCaught s i = er.state := by
    unfold tickCaught
    rw [h]
    rfl
  rw [runSentry, hc]

/-- C9 witness: a tick whose Telegram dispatch raises `"boom"` is caught and
the loop proceeds. -/
theorem tick_exception_caught_loop_continues_witness :
    tickBody ⟨0, 0, ∅⟩ wTickC9 = Except.error ⟨⟨0, 0, ∅⟩, AlertReason.regular, "boom"⟩ ∧
    runSentry ⟨0, 0, ∅⟩ [wTickC9] = runSentry ⟨0, 0, ∅⟩ [] := by
  have hb : tickBody ⟨0, 0, ∅⟩ wTickC9 =
      Except.error ⟨⟨0, 0, ∅⟩, AlertReason.regular, "boom"⟩ := by
    rw [tickBody_fetch_ok ⟨0, 0, ∅⟩ wTickC9 ⟨80, 50, 2, 79, 81, 1, 0⟩ rfl]
    rw [tickCore_quiet ⟨0, 0, ∅⟩ wTickC9 _
      (fun hcon => absurd hcon.1 (lt_irrefl 0)) rfl]
    exact dispatchStep_raise ⟨0, 0, ∅⟩ wTickC9 _ _ _ _ "boom"
      (Or.inr (by show (2000:ℚ) - 0 ≥ 1800; norm_num)) rfl
  exact ⟨hb, tick_exception_caught_loop_continues ⟨0, 0, ∅⟩ wTickC9 []
    ⟨⟨0, 0, ∅⟩, AlertReason.regular, "boom"⟩ hb⟩

/-- C2: when a tick's breaking-news check fires on a news entry, its link is
in the seen-set of the state the tick leaves behind — the insertion happens at
detection, before and independently of the dispatch outcome, since
`tickCaught` covers both the successful and the raising dispatch — and the
immediately following tick can never fire on the same link again. -/
theorem news_dedup_two_ticks :
    ∀ (s : SentryState) (i j : TickInput) (e : NewsEntry),
      newsTrigger s i = some e →
      e.link ∈ (tickCaught s i).seenNewsLinks ∧
      ∀ eB : NewsEntry, newsTrigger (tickCaught s i) j = some eB → eB.link ≠ e.link := by
  intro s i j e h
  have hin : (tickCaught s i).seenNewsLinks = insert e.link s.seenNewsLinks :=
    newsTrigger_some_seen_after s i e h
  refine ⟨by rw [hin]; exact Finset.mem_insert_self _ _, ?_⟩
  intro eB hB heq
  have hnot : eB.link ∉ (tickCaught s i).seenNewsLinks :=
    newsTrigger_some_not_seen (tickCaught s i) j eB hB
  rw [hin, heq] at hnot
  exact hnot (Finset.mem_insert_self _ _)

/-- C2 witness: a fresh unseen entry (published 10 seconds ago) fires and its
link lands in the seen-set. -/
theorem news_dedup_two_ticks_witness :
    newsTrigger ⟨0, 0, ∅⟩ wTickC2 = some wEntryC2 ∧
    wEntryC2.link ∈ (tickCaught ⟨0, 0, ∅⟩ wTickC2).seenNewsLinks := by
  have ht : newsTrigger ⟨0, 0, ∅⟩ wTickC2 = some wEntryC2 := by
    show (if (0:ℚ) > 0 ∧ |(80:ℚ) - 0| ≥ 0.50 then (none : Option NewsEntry)
          else newsScan 60 ∅ [wEntryC2]) = some wEntryC2
    rw [if_neg (fun hcon => absurd hcon.1 (lt_irrefl 0))]
    show (if (60:ℚ) - 50 < 900 ∧ wEntryC2.link ∉ (∅ : Finset String) then some wEntryC2
          else newsScan 60 ∅ []) = some wEntryC2
    rw [if_pos ⟨by norm_num, by simp⟩]
  exact ⟨ht, (news_dedup_two_ticks ⟨0, 0, ∅⟩ wTickC2 wTickC2 wEntryC2 ht).1⟩

/-- C7: on a tick with market data, the report is built and dispatched exactly
when the tick is an emergency or at least 1800 seconds passed since the last
full report; when the dispatch block completes, `last_full_report_time` is set
to the clock read taken right after dispatch and the tick's price becomes the
new shock baseline; on a quiet tick, or when the dispatch block raises, both
are left unchanged. -/
theorem dispatch_iff_and_baseline_update :
    ∀ (s : SentryState) (i : TickInput) (d : OkData),
      i.fetch = Fetch.ok d →
      ((tickDispatches s i = true ↔
        (isEmergencyTick s i d.price = true ∨
          i.currentTime - s.lastFullReportTime ≥ 1800)) ∧
      (tickDispatches s i = true → i.dispatchError = none →
        (tickCaught s i).lastFullReportTime = i.dispatchTime ∧
        (tickCaught s i).lastPrice = d.price) ∧
      ((tickDispatches s i = false ∨ i.dispatchError ≠ none) →
        (tickCaught s i).lastFullReportTime = s.lastFullReportTime ∧
        (tickCaught s i).lastPrice = s.lastPrice)) := by
  intro s i d hf
  rcases tickCore_eq_dispatchStep s i d.price with ⟨seen, r, hcore⟩
  have hb : tickBody s i = dispatchStep s i d.price seen r (isEmergencyTick s i d.price) :=
    (tickBody_fetch_ok s i d hf).trans hcore
  have hiff : tickDispatches s i = true ↔
      (isEmergencyTick s i d.price = true ∨ i.currentTime - s.lastFullReportTime ≥ 1800) := by
    unfold tickDispatches
    rw [hb]
    exact resultDispatched_dispatchStep s i d.price seen r _
  refine ⟨hiff, ?_, ?_⟩
  · intro hdisp hnone
    have hcond := hiff.1 hdisp
    unfold tickCaught
    rw [hb, dispatchStep_go s i d.price seen r _ hcond hnone]
    exact ⟨rfl, rfl⟩
  · intro hor
    rcases hor with hfalse | herr
    · have hcond : ¬(isEmergencyTick s i d.price = true ∨
          i.currentTime - s.lastFullReportTime ≥ 1800) := by
        intro hc
        rw [hiff.2 hc] at hfalse
        exact Bool.noConfusion hfalse
      unfold tickCaught
      rw [hb, dispatchStep_quiet s i d.price seen r _ hcond]
      exact ⟨rfl, rfl⟩
    · cases hd : i.dispatchError with
      | none => exact absurd hd herr
      | some msg =>
        by_cases hcond : isEmergencyTick s i d.price = true ∨
            i.currentTime - s.lastFullReportTime ≥ 1800
        · unfold tickCaught
          rw [hb, dispatchStep_raise s i d.price seen r _ msg hcond hd]
          exact ⟨rfl, rfl⟩
        · unfold tickCaught
          rw [hb, dispatchStep_quiet s i d.price seen r _ hcond]
          exact ⟨rfl, rfl⟩

/-- C7 witness: a scheduled tick (1800 s elapsed, no emergency) with a
successful dispatch at clock 2005. -/
theorem dispatch_iff_and_baseline_update_witness :
    wTickC7.fetch = Fetch.ok wOkC7 ∧
    ((tickDispatches ⟨0, 0, ∅⟩ wTickC7 = true ↔
      (isEmergencyTick ⟨0, 0, ∅⟩ wTickC7 wOkC7.price = true ∨
        wTickC7.currentTime - (⟨0, 0, ∅⟩ : SentryState).lastFullReportTime ≥ 1800)) ∧
     (tickDispatches ⟨0, 0, ∅⟩ wTickC7 = true → wTickC7.dispatchError = none →
       (tickCaught ⟨0, 0, ∅⟩ wTickC7).lastFullReportTime = wTickC7.dispatchTime ∧
       (tickCaught ⟨0, 0, ∅⟩ wTickC7).lastPrice = wOkC7.price) ∧
     ((tickDispatches ⟨0, 0, ∅⟩ wTickC7 = false ∨ wTickC7.dispatchError ≠ none) →
       (tickCaught ⟨0, 0, ∅⟩ wTickC7).lastFullReportTime =
         (⟨0, 0, ∅⟩ : SentryState).lastFullReportTime ∧
       (tickCaught ⟨0, 0, ∅⟩ wTickC7).lastPrice = (⟨0, 0, ∅⟩ : SentryState).lastPrice)) :=
  ⟨rfl, dispatch_iff_and_baseline_update ⟨0, 0, ∅⟩ wTickC7 wOkC7 rfl⟩

/-- C1 counterexample: a three-tick run whose consecutive price moves are
0.40 and 0.40, both under the 0.50 threshold, still raises a price-spike
EMERGENCY on the third tick: the first tick dispatches the scheduled report
and records baseline 80.00, the second tick is quiet (so the baseline is not
refreshed), and the third tick's 80.80 is 0.80 away from the stale 80.00
baseline.  The code compares against the last dispatched price, not the
previous tick's price, so small consecutive moves accumulate. -/
theorem shock_small_moves_cex :
    (|(80.40:ℚ) - 80.00| < 0.50 ∧ |(80.80:ℚ) - 80.40| < 0.50) ∧
    (runReasons ⟨0, 0, ∅⟩ [cexTickA, cexTickB, cexTickC]).map AlertReason.isSpike =
      [false, false, true] := by
  have hb1 : |(80.40:ℚ) - 80.00| < 0.50 := by
    rw [abs_of_nonneg (by norm_num : (0:ℚ) ≤ 80.40 - 80.00)]
    norm_num
  have hb2 : |(80.80:ℚ) - 80.40| < 0.50 := by
    rw [abs_of_nonneg (by norm_num : (0:ℚ) ≤ 80.80 - 80.40)]
    norm_num
  have hA : tickBody ⟨0, 0, ∅⟩ cexTickA =
      Except.ok ⟨⟨10000, 80.00, ∅⟩, true, AlertReason.regular⟩ := by
    rw [tickBody_fetch_ok ⟨0, 0, ∅⟩ cexTickA ⟨80.00, 50, 2, 79, 81, 1, 0⟩ rfl]
    rw [tickCore_quiet ⟨0, 0, ∅⟩ cexTickA _
      (fun hcon => absurd hcon.1 (lt_irrefl 0)) rfl]
    exact dispatchStep_go ⟨0, 0, ∅⟩ cexTickA _ _ _ _
      (Or.inr (by show (10000:ℚ) - 0 ≥ 1800; norm_num)) rfl
  have hcaughtA : tickCaught ⟨0, 0, ∅⟩ cexTickA = ⟨10000, 80.00, ∅⟩ := by
    unfold tickCaught
    rw [hA]
    rfl
  have hreasonA : tickReason ⟨0, 0, ∅⟩ cexTickA = AlertReason.regular := by
    unfold tickReason
    rw [hA]
    rfl
  have hsB : ¬((⟨10000, 80.00, ∅⟩ : SentryState).lastPrice > 0 ∧
      |(80.40:ℚ) - (⟨10000, 80.00, ∅⟩ : SentryState).lastPrice| ≥ 0.50) :=
    fun hcon => absurd hcon.2 (not_le.2 hb1)
  have hB : tickBody ⟨10000, 80.00, ∅⟩ cexTickB =
      Except.ok ⟨⟨10000, 80.00, ∅⟩, false, AlertReason.regular⟩ := by
    rw [tickBody_fetch_ok ⟨10000, 80.00, ∅⟩ cexTickB ⟨80.40, 50, 2, 79, 81, 1, 0⟩ rfl]
    rw [tickCore_quiet ⟨10000, 80.00, ∅⟩ cexTickB _ hsB rfl]
    refine dispatchStep_quiet ⟨10000, 80.00, ∅⟩ cexTickB _ _ _ _ ?_
    rintro (hcon | hcon)
    · exact Bool.noConfusion hcon
    · have : ¬((10120:ℚ) - 10000 ≥ 1800) := by norm_num
      exact this hcon
  have hcaughtB : tickCaught ⟨10000, 80.00, ∅⟩ cexTickB = ⟨10000, 80.00, ∅⟩ := by
    unfold tickCaught
    rw [hB]
    rfl
  have hreasonB : tickReason ⟨10000, 80.00, ∅⟩ cexTickB = AlertReason.regular := by
    unfold tickReason
    rw [hB]
    rfl
  have hsC : (⟨10000, 80.00, ∅⟩ : SentryState).lastPrice > 0 ∧
      |(80.80:ℚ) - (⟨10000, 80.00, ∅⟩ : SentryState).lastPrice| ≥ 0.50 := by
    constructor
    · show (0:ℚ) < 80.00
      norm_num
    · show |(80.80:ℚ) - 80.00| ≥ 0.50
      rw [abs_of_nonneg (by norm_num : (0:ℚ) ≤ 80.80 - 80.00)]
      norm_num
  have hreasonC : (tickReason ⟨10000, 80.00, ∅⟩ cexTickC).isSpike = true := by
    unfold tickReason
    rw [tickBody_fetch_ok ⟨10000, 80.00, ∅⟩ cexTickC ⟨80.80, 50, 2, 79, 81, 1, 0⟩ rfl]
    rw [tickCore_spike ⟨10000, 80.00, ∅⟩ cexTickC _ hsC, resultReason_dispatchStep]
    rfl
  refine ⟨⟨hb1, hb2⟩, ?_⟩
  simp only [runReasons, hcaughtA, hcaughtB, List.map_cons, List.map_nil,
    hreasonA, hreasonB]
  rw [hreasonC]
  rfl

/-- C1 amended: the consecutive-move premise must be strengthened to a
pairwise bound — if every pair of data-tick prices differs by less than the
0.50 threshold (and the run starts with no baseline, `last_price = 0`), then
the shock path never classifies any tick as a price-spike EMERGENCY.  Prices
accumulate against the last dispatched baseline, which is always one of the
run's own prices or the initial 0. -/
theorem shock_pairwise_bounded_no_spike :
    ∀ (inputs : List TickInput) (s : SentryState),
      s.lastPrice = 0 →
      (∀ p ∈ okPrices inputs, ∀ q ∈ okPrices inputs, |p - q| < 0.50) →
      ∀ r ∈ runReasons s inputs, r.isSpike = false :=
  fun inputs s h0 h1 => no_spike_aux inputs s h1 (Or.inl h0)

/-- C1 witness: a one-tick run at price 80 from the start state. -/
theorem shock_pairwise_bounded_no_spike_witness :
    ((⟨0, 0, ∅⟩ : SentryState).lastPrice = 0 ∧
      (∀ p ∈ okPrices [wTickC1], ∀ q ∈ okPrices [wTickC1], |p - q| < 0.50)) ∧
    (∀ r ∈ runReasons ⟨0, 0, ∅⟩ [wTickC1], r.isSpike = false) := by
  have hp : ∀ p ∈ okPrices [wTickC1], ∀ q ∈ okPrices [wTickC1], |p - q| < 0.50 := by
    intro p hp q hq
    simp only [okPrices, okPrice, wTickC1, List.filterMap_cons, List.filterMap_nil,
      List.mem_singleton] at hp hq
    rw [hp, hq, sub_self, abs_zero]
    norm_num
  exact ⟨⟨rfl, hp⟩, shock_pairwise_bounded_no_spike [wTickC1] ⟨0, 0, ∅⟩ rfl hp⟩

end TradingBot
